import Mathlib

/-!
Shallow embedding of the `mapradar` repository (src/main.rs and
src/models.rs): the domain data model, the nearby service-type parser,
and the nearby query-resolution logic, together with proofs of the
specified properties.

Rust `f64`/`f32` fields are modelled as Lean `Float`; the claims only
move these values around, never compute with them.  Rust `i32` is
modelled as `Int` and `usize` as `Nat` (no claim exercises overflow).
-/

/-- Supported amenity types for nearby search (src/models.rs, `enum
ServiceType`, constructors in source order). -/
inductive ServiceType where
  | BusStop
  | Market
  | School
  | Mall
  | Hospital
  | Bank
  | Restaurant
  | FuelStation
  | TrainStation
  | TaxiStand
  | Landmark
  deriving DecidableEq, Repr

/-- Embedding of Rust `str::trim` on the character list of a token:
leading and trailing whitespace characters are removed. -/
def trimChars (cs : List Char) : List Char :=
  ((cs.dropWhile Char.isWhitespace).reverse.dropWhile Char.isWhitespace).reverse

/-- Rust `str::trim` at the string level. -/
def trim_string (s : String) : String :=
  String.mk (trimChars s.data)

/-- One arm of the `match s.trim()` in src/main.rs lines 84-99: a trimmed
token is compared against the eleven known tags in source order, every
other token falling through to `ServiceType::Landmark`.  The Rust `match`
on `&str` is a chain of string-equality tests, embedded here as such. -/
def parse_token (s : String) : ServiceType :=
  if trim_string s = "bank" then ServiceType.Bank
  else if trim_string s = "hospital" then ServiceType.Hospital
  else if trim_string s = "school" then ServiceType.School
  else if trim_string s = "restaurant" then ServiceType.Restaurant
  else if trim_string s = "bus-stop" then ServiceType.BusStop
  else if trim_string s = "market" then ServiceType.Market
  else if trim_string s = "mall" then ServiceType.Mall
  else if trim_string s = "fuel-station" then ServiceType.FuelStation
  else if trim_string s = "train-station" then ServiceType.TrainStation
  else if trim_string s = "taxi-stand" then ServiceType.TaxiStand
  else if trim_string s = "landmark" then ServiceType.Landmark
  else ServiceType.Landmark

/-- Embedding of Rust `str::split(",")` on a character list: the input is
cut at every comma, an input with `n` commas yielding `n + 1` (possibly
empty) segments, and the empty input yielding the single empty segment. -/
def splitComma : List Char → List (List Char)
  | [] => [[]]
  | c :: cs =>
    if c = ',' then [] :: splitComma cs
    else
      match splitComma cs with
      | [] => [[c]]
      | h :: t => (c :: h) :: t

/-- The service-type list construction of src/main.rs lines 84-100:
split the `--type` argument on commas, trim each token and map it to its
`ServiceType`. -/
def parse_service_types (s : String) : List ServiceType :=
  (splitComma s.data).map (fun cs => parse_token (String.mk cs))

/-- The eleven token strings recognised by the parser, in source order of
the match arms. -/
def knownTokens : List String :=
  ["bank", "hospital", "school", "restaurant", "bus-stop", "market",
   "mall", "fuel-station", "train-station", "taxi-stand", "landmark"]

/-- The tags the eleven known tokens map to, in the same order. -/
def knownTags : List ServiceType :=
  [ServiceType.Bank, ServiceType.Hospital, ServiceType.School,
   ServiceType.Restaurant, ServiceType.BusStop, ServiceType.Market,
   ServiceType.Mall, ServiceType.FuelStation, ServiceType.TrainStation,
   ServiceType.TaxiStand, ServiceType.Landmark]

/-- Represents a geographic location (src/models.rs, `struct GeoLocation`). -/
structure GeoLocation where
  address : String
  latitude : Float
  longitude : Float
  city : Option String
  state : Option String
  country : String
  deriving Repr

/-- Represents a specific amenity found near a location (src/models.rs,
`struct NearbyService`). -/
structure NearbyService where
  name : String
  service_type : ServiceType
  latitude : Float
  longitude : Float
  distance_km : Float
  address : Option String
  rating : Option Float
  place_id : Option String
  deriving Repr

/-- Comprehensive intelligence about a location (src/models.rs,
`struct LocationIntelligence`). -/
structure LocationIntelligence where
  location : GeoLocation
  nearby_services : List NearbyService
  total_services_found : Nat
  deriving Repr

/-- Constructor `LocationIntelligence::new` (src/models.rs lines 86-94):
the length of the service list is taken as `total_services_found`; the
caller never supplies the count. -/
def LocationIntelligence.new (location : GeoLocation)
    (nearby_services : List NearbyService) : LocationIntelligence :=
  let total := nearby_services.length
  ⟨location, nearby_services, total⟩

/-- Represents a search query, either by address or coordinates
(src/models.rs, `enum SearchQuery`). -/
inductive SearchQuery where
  | Address (address : String)
  | Coordinates (latitude : Float) (longitude : Float)
  deriving Repr

/-- Constructor `SearchQuery::from_address` (src/models.rs lines 107-110). -/
def SearchQuery.from_address (address : String) : SearchQuery :=
  SearchQuery.Address address

/-- Constructor `SearchQuery::from_coordinates` (src/models.rs lines
112-118). -/
def SearchQuery.from_coordinates (latitude : Float) (longitude : Float) :
    SearchQuery :=
  SearchQuery.Coordinates latitude longitude

/-- The nearby query resolution of src/main.rs lines 102-122.  The two
`eprintln` + `process::exit(1)` paths are embedded as `Except.error`
carrying the user-facing message and the exit code (always 1); the
successful paths build the `SearchQuery` through the named constructors,
exactly as the source does. -/
def resolve_query (address : Option String) (latitude : Option Float)
    (longitude : Option Float) : Except (String × Nat) SearchQuery :=
  match latitude with
  | some latitude_val =>
    match longitude with
    | some longitude_val =>
      Except.ok (SearchQuery.from_coordinates latitude_val longitude_val)
    | none =>
      Except.error ("Longitude is required when latitude is provided", 1)
  | none =>
    match address with
    | some address_val => Except.ok (SearchQuery.from_address address_val)
    | none =>
      Except.error ("Either address or coordinates must be provided", 1)

/-- Represents a JSON-RPC 2.0 error object (src/models.rs,
`struct JsonRpcError`). -/
structure JsonRpcError where
  code : Int
  message : String
  data : Option String
  deriving DecidableEq, Repr

/-- Constructor `JsonRpcError::new` (src/models.rs lines 135-143). -/
def JsonRpcError.new (code : Int) (message : String) (data : Option String) :
    JsonRpcError :=
  ⟨code, message, data⟩

/-- Represents a JSON-RPC 2.0 response wrapper (src/models.rs,
`struct JsonRpcResponse`), fields in source (and serialization) order. -/
structure JsonRpcResponse where
  jsonrpc : String
  result : Option String
  error : Option JsonRpcError
  id : String
  deriving DecidableEq, Repr

/-- Constructor `JsonRpcResponse::new` (src/models.rs lines 162-171): the
protocol version is fixed to "2.0"; `result` and `error` are stored
exactly as given, with no exclusivity check. -/
def JsonRpcResponse.new (id : String) (result : Option String)
    (error : Option JsonRpcError) : JsonRpcResponse :=
  ⟨"2.0", result, error, id⟩

/-- The mutual-exclusivity property the spec asserts of a response:
exactly one of `result` and `error` is populated. -/
def mutually_exclusive (r : JsonRpcResponse) : Prop :=
  (r.result.isSome ∧ r.error = none) ∨ (r.result = none ∧ r.error.isSome)

instance (r : JsonRpcResponse) : Decidable (mutually_exclusive r) := by
  unfold mutually_exclusive; infer_instance

/-- Lower-case hexadecimal digit, used for JSON control-character
escapes. -/
def hexDigit (n : Nat) : Char :=
  if n < 10 then Char.ofNat (48 + n) else Char.ofNat (87 + n)

/-- JSON escaping of one character, as serde_json emits it: quote and
backslash are escaped, control characters use their short escapes or a
`\u00XX` sequence, every other character stands for itself. -/
def escapeChar (c : Char) : String :=
  if c = '"' then "\\\""
  else if c = '\\' then "\\\\"
  else if c = '\x08' then "\\b"
  else if c = '\t' then "\\t"
  else if c = '\n' then "\\n"
  else if c = '\x0c' then "\\f"
  else if c = '\r' then "\\r"
  else if c.toNat < 32 then
    String.mk ['\\', 'u', '0', '0', hexDigit (c.toNat / 16), hexDigit (c.toNat % 16)]
  else String.singleton c

/-- A JSON string literal: the escaped characters between quotes. -/
def json_string (s : String) : String :=
  "\"" ++ String.join (s.data.map escapeChar) ++ "\""

/-- Serialization of an `Option` field: serde emits `null` for `None`
(the source derives `Serialize` with no skip attribute). -/
def json_opt (f : α → String) : Option α → String
  | none => "null"
  | some a => f a

/-- Serde serialization of a `JsonRpcError`, fields in declaration
order. -/
def json_of_error (e : JsonRpcError) : String :=
  "\x7b\"code\":" ++ toString e.code ++ ",\"message\":" ++
    json_string e.message ++ ",\"data\":" ++ json_opt json_string e.data ++
    "\x7d"

/-- Serde serialization of a `JsonRpcResponse`, fields in declaration
order: jsonrpc, result, error, id. -/
def render_response (r : JsonRpcResponse) : String :=
  "\x7b\"jsonrpc\":" ++ json_string r.jsonrpc ++ ",\"result\":" ++
    json_opt json_string r.result ++ ",\"error\":" ++
    json_opt json_of_error r.error ++ ",\"id\":" ++ json_string r.id ++
    "\x7d"

/-- Method `JsonRpcResponse::to_json` (src/models.rs lines 174-177):
`serde_json::to_string(self)`, with a serde failure mapped into a
reported error value rather than a panic.  For this response type every
field is a string, an integer, or an option of such, so serde encoding
always succeeds: the error branch of the `map_err` is unreachable, and
the embedding returns the rendered JSON for every response. -/
def JsonRpcResponse.to_json (r : JsonRpcResponse) : Except String String :=
  Except.ok (render_response r)

/-! ## Helper lemmas -/

/-- A token whose trimmed form is none of the eleven known tags falls
through every match arm to the default `Landmark`. -/
theorem parse_token_unknown (s : String)
    (h : trim_string s ∉ knownTokens) :
    parse_token s = ServiceType.Landmark := by
  have h1 : trim_string s ≠ "bank" := fun e => h (by rw [e]; decide)
  have h2 : trim_string s ≠ "hospital" := fun e => h (by rw [e]; decide)
  have h3 : trim_string s ≠ "school" := fun e => h (by rw [e]; decide)
  have h4 : trim_string s ≠ "restaurant" := fun e => h (by rw [e]; decide)
  have h5 : trim_string s ≠ "bus-stop" := fun e => h (by rw [e]; decide)
  have h6 : trim_string s ≠ "market" := fun e => h (by rw [e]; decide)
  have h7 : trim_string s ≠ "mall" := fun e => h (by rw [e]; decide)
  have h8 : trim_string s ≠ "fuel-station" := fun e => h (by rw [e]; decide)
  have h9 : trim_string s ≠ "train-station" := fun e => h (by rw [e]; decide)
  have h10 : trim_string s ≠ "taxi-stand" := fun e => h (by rw [e]; decide)
  have h11 : trim_string s ≠ "landmark" := fun e => h (by rw [e]; decide)
  unfold parse_token
  rw [if_neg h1, if_neg h2, if_neg h3, if_neg h4, if_neg h5, if_neg h6,
      if_neg h7, if_neg h8, if_neg h9, if_neg h10, if_neg h11]

/-- Splitting on commas never yields an empty segment list. -/
theorem splitComma_ne_nil (cs : List Char) : splitComma cs ≠ [] := by
  induction cs with
  | nil => simp [splitComma]
  | cons c cs ih =>
    unfold splitComma
    by_cases hc : c = ','
    · simp [hc]
    · rcases hsc : splitComma cs with _ | ⟨h, t⟩
      · exact absurd hsc ih
      · simp [hc, hsc]

/-- Splitting on commas yields one more segment than there are commas. -/
theorem splitComma_length (cs : List Char) :
    (splitComma cs).length = cs.count ',' + 1 := by
  induction cs with
  | nil => rfl
  | cons c cs ih =>
    unfold splitComma
    by_cases hc : c = ','
    · simp [hc, List.count_cons, ih]
    · rcases hsc : splitComma cs with _ | ⟨h, t⟩
      · exact absurd hsc (splitComma_ne_nil cs)
      · rw [hsc] at ih
        simp only [hsc, List.length_cons] at ih ⊢
        simp [hc, List.count_cons, ← ih]

/-! ## Claim theorems -/

/-- C1: every trimmed token that is one of the eleven known tags maps to
its `ServiceType` tag, the mapping of the eleven known tokens onto the
eleven tags is a bijection (the image list is exactly the eleven distinct
constructors), and every unrecognized token maps to `Landmark` instead of
failing; "bank,unknown,hospital" parses to [Bank, Landmark, Hospital]. -/
theorem service_type_parser_fallback_and_bijection :
    parse_service_types ("bank,unknown,hospital") =
      [ServiceType.Bank, ServiceType.Landmark, ServiceType.Hospital]
    ∧ knownTokens.map parse_token = knownTags
    ∧ knownTags.Nodup
    ∧ (∀ st : ServiceType, st ∈ knownTags)
    ∧ (∀ s : String, trim_string s ∉ knownTokens →
        parse_token s = ServiceType.Landmark) := by
  refine ⟨by decide, by decide, by decide, ?_, parse_token_unknown⟩
  intro st
  cases st <;> decide

/-- Witness for C1: the unrecognized token "unknown" satisfies the
hypothesis and maps to `Landmark`. -/
theorem service_type_parser_fallback_witness :
    trim_string ("unknown") ∉ knownTokens ∧
      parse_token ("unknown") = ServiceType.Landmark :=
  ⟨by decide,
   service_type_parser_fallback_and_bijection.2.2.2.2 ("unknown") (by decide)⟩

/-- C2: for every location and every service list, empty or not,
`LocationIntelligence.new` stores the list and derives
`total_services_found` as its length; the count is computed at
construction (the constructor takes no count argument). -/
theorem location_intelligence_new_count (loc : GeoLocation)
    (ns : List NearbyService) :
    (LocationIntelligence.new loc ns).total_services_found = ns.length ∧
      (LocationIntelligence.new loc ns).nearby_services = ns :=
  ⟨rfl, rfl⟩

/-- C3: whenever latitude is provided and longitude is not, resolution
fails with the "Longitude is required when latitude is provided" message
and exit code 1 (non-zero), regardless of the address argument; no
`SearchQuery` is built on this path, as the `Except.error` result shows. -/
theorem resolve_query_latitude_without_longitude (address : Option String)
    (lat : Float) :
    resolve_query address (some lat) none =
      Except.error ("Longitude is required when latitude is provided", 1) :=
  rfl

/-- C4 counterexample: the claim that every response constructible through
`JsonRpcResponse.new` has exactly one of result/error populated is false:
`new` accepts and stores both a result and an error at once. -/
theorem jsonrpc_exclusivity_counterexample :
    ¬ mutually_exclusive
        (JsonRpcResponse.new ("1") (some ("ok"))
          (some (JsonRpcError.new 7 ("boom") none))) := by
  decide

/-- C4 amended: `JsonRpcResponse.new` stores the given result and error
options verbatim and enforces no exclusivity; the constructed response
has exactly one of result/error populated precisely when the arguments
themselves do (both-Some and both-None responses are constructible). -/
theorem jsonrpc_new_stores_result_error (id : String)
    (result : Option String) (error : Option JsonRpcError) :
    (JsonRpcResponse.new id result error).result = result ∧
    (JsonRpcResponse.new id result error).error = error ∧
    (mutually_exclusive (JsonRpcResponse.new id result error) ↔
      ((result.isSome ∧ error = none) ∨ (result = none ∧ error.isSome))) :=
  ⟨rfl, rfl, Iff.rfl⟩

/-- C5: whenever both latitude and longitude are provided, resolution
yields `SearchQuery.Coordinates` with exactly those values, taking
priority over any address that may also be provided. -/
theorem resolve_query_coordinates_priority (address : Option String)
    (lat lon : Float) :
    resolve_query address (some lat) (some lon) =
      Except.ok (SearchQuery.Coordinates lat lon) :=
  rfl

/-- C6: whenever latitude is absent and an address is provided,
resolution yields `SearchQuery.Address` with exactly that string,
whatever the longitude argument is — a lone longitude is never inspected
on this path. -/
theorem resolve_query_address_only (a : String) (lon : Option Float) :
    resolve_query (some a) none lon = Except.ok (SearchQuery.Address a) :=
  rfl

/-- C7: when neither an address nor a latitude is provided, resolution
fails with the "Either address or coordinates must be provided" message
and exit code 1 (non-zero), whatever the longitude argument is. -/
theorem resolve_query_missing_input (lon : Option Float) :
    resolve_query none none lon =
      Except.error ("Either address or coordinates must be provided", 1) :=
  rfl

/-- C8: `JsonRpcResponse.new` fixes the protocol version to "2.0" and
stores the given id, result and error; the concrete response
new("1", Some("ok"), None) serializes with jsonrpc "2.0", result "ok",
and error null. -/
theorem jsonrpc_new_fixes_version_and_serializes :
    (∀ (id : String) (result : Option String) (error : Option JsonRpcError),
      (JsonRpcResponse.new id result error).jsonrpc = "2.0" ∧
      (JsonRpcResponse.new id result error).result = result ∧
      (JsonRpcResponse.new id result error).error = error ∧
      (JsonRpcResponse.new id result error).id = id)
    ∧ (JsonRpcResponse.new ("1") (some ("ok")) none).to_json =
        Except.ok
          ("\x7b\"jsonrpc\":\"2.0\",\"result\":\"ok\",\"error\":null,\"id\":\"1\"\x7d") :=
  ⟨fun _ _ _ => ⟨rfl, rfl, rfl, rfl⟩, by rfl⟩

/-- C9: `to_json` never aborts: for every response it returns the
rendered JSON string and never a serialization error, since every field
of this response type (strings, an integer code, options of such) is
always JSON-encodable — the error branch is exactly the impossible-encoding
case, which does not arise. -/
theorem to_json_total_never_error (r : JsonRpcResponse) :
    r.to_json = Except.ok (render_response r) ∧
      ∀ e, r.to_json ≠ Except.error e :=
  ⟨rfl, fun _ h => Except.noConfusion h⟩

/-- C10: the service-type parser is total and the length of its output
equals the number of comma-separated segments of the input, one more than
the number of commas; the empty string yields the single-element list
[Landmark], its one empty segment being unrecognized. -/
theorem parse_service_types_total_length :
    (∀ s : String, (parse_service_types s).length = s.data.count ',' + 1)
    ∧ parse_service_types "" = [ServiceType.Landmark] := by
  constructor
  · intro s
    unfold parse_service_types
    rw [List.length_map, splitComma_length]
  · decide
